import Mathlib

/-!
Shallow embedding of the miband4 repository (session service layer and
console glue) and proofs about its connection / command-dispatch behavior.

Sources embedded:
- `miband4-app/miband_service.py`: the `MibandService` class (`__init__`,
  `connect`, `disconnect`, `is_freezed`, `is_connected`, `get_pulse`,
  `_get_pulse`, `set_pulse`, `get_info`, `send_message`) and the
  `reconnect` guard decorator.
- `miband4-app/miband4_console.py`: `MiConsole.__init__` (auth-key length
  check and the connect-retry loop) and `MiConsole.send_notif` (alert-type
  mapping table).

The external BLE library (`libs.miband4.miband4.Miband`) is not part of
this repository's sources; transport-attempt outcomes are therefore a
parameter (`TResult` / `AttemptOutcome` behaviors), and the realtime
heart-rate delivery loop is modelled from the spec where noted.
-/

/-- Python exception classes that the embedded code can raise. -/
inductive Err where
  | freezedMibandError
  | attributeError
  | valueError
  | invalidArgumentError
deriving DecidableEq, Repr

/-- The mutable attribute state of a `MibandService` instance.
`band` models presence of the `self.band` attribute (the transport
handle, deleted on disconnect); `pulse` models presence of the
`self.pulse` attribute (last realtime sample). `auth_key` holds the
byte sequence after `bytes.fromhex` conversion. -/
structure MibandState where
  mac_address : String
  auth_key : List Nat
  band : Option Unit
  pulse : Option Int
deriving DecidableEq, Repr

/-- `MibandService.disconnect`: delete the `band` and `pulse` attributes
(each `del` wrapped in try/except AttributeError, so it succeeds from any
prior state). -/
def disconnect (s : MibandState) : MibandState :=
  { s with band := none, pulse := none }

/-- `MibandService.is_freezed`: `not self.mac_address or not self.auth_key`
(Python falsiness of an empty string / empty byte sequence). -/
def is_freezed (s : MibandState) : Bool :=
  s.mac_address.isEmpty || s.auth_key.isEmpty

/-- `MibandService.is_connected`: try `self.band` and return whether the
attribute is present. -/
def is_connected (s : MibandState) : Bool :=
  s.band.isSome

/-- Outcome of one transport-level connect attempt
(`NativeMiband(mac, key, timeout=10)` followed by `initialize()`):
the constructor raises `BTLEDisconnectError` (`ctorFail`), the
initialization raises it (`initFail`), or both return (`success`). -/
inductive TResult where
  | ctorFail
  | initFail
  | success
deriving DecidableEq, Repr

/-- Result of a call to `MibandService.connect`. `returned s n` means the
call returned normally with final state `s` after starting `n` realtime
pulse threads; `raised e s` means exception `e` escaped leaving state `s`;
`outOfFuel` marks exhaustion of the recursion fuel (divergence). -/
inductive CResult where
  | returned : MibandState → Nat → CResult
  | raised : Err → MibandState → CResult
  | outOfFuel : CResult
deriving DecidableEq, Repr

/-- `MibandService.connect`, fueled. `tr` gives the outcome of the i-th
transport attempt. Returns the result paired with the number of transport
connect attempts (`NativeMiband` constructions) performed.

Source shape:
```
try:
    self.band = NativeMiband(...); self.band.initialize()
except BTLEDisconnectError:
    self.disconnect(); raise ValueError(...)
else:
    self.connect()                 -- recursive call
    self._thread_realtime_pulse()
```
On `ctorFail` the `band` attribute was never assigned; on `initFail` it
was assigned before the exception; both paths run `disconnect()` and
raise `ValueError`. On `success` the code recursively calls `connect()`
and only afterwards starts the realtime pulse thread. -/
def connect (tr : Nat → TResult) : Nat → Nat → MibandState → CResult × Nat
  | 0, _, _ => (.outOfFuel, 0)
  | fuel + 1, i, s =>
    match tr i with
    | .ctorFail => (.raised .valueError (disconnect s), 1)
    | .initFail => (.raised .valueError (disconnect { s with band := some () }), 1)
    | .success =>
      match connect tr fuel (i + 1) { s with band := some () } with
      | (.returned s2 n, c) => (.returned s2 (n + 1), c + 1)
      | (.raised e s2, c) => (.raised e s2, c + 1)
      | (.outOfFuel, c) => (.outOfFuel, c + 1)

/-- Whether a `connect` call returned normally (reaching the line that
starts the realtime pulse thread). -/
def returned_normally : CResult → Bool
  | .returned _ _ => true
  | _ => false

/-- Result of the `reconnect` guard's pre-check (the wrapper body before
the wrapped function runs). -/
inductive GResult where
  | proceed : MibandState → GResult
  | raised : Err → MibandState → GResult
  | outOfFuel : GResult
deriving DecidableEq, Repr

/-- The `reconnect` decorator's wrapper, up to (but not including) the call
of the wrapped function — the spec's `ensure_connected()` guard:
raise `FreezedMibandError` if `is_freezed()`; call `connect()` if not
`is_connected()`. Second component counts transport connect attempts. -/
def reconnect (tr : Nat → TResult) (fuel i : Nat) (s : MibandState) :
    GResult × Nat :=
  if is_freezed s then (.raised .freezedMibandError s, 0)
  else if is_connected s then (.proceed s, 0)
  else
    match connect tr fuel i s with
    | (.returned s2 _, c) => (.proceed s2, c)
    | (.raised e s2, c) => (.raised e s2, c)
    | (.outOfFuel, c) => (.outOfFuel, c)

/-- Result of a guarded service command. -/
inductive CallResult (α : Type) where
  | ok : α → MibandState → CallResult α
  | raised : Err → MibandState → CallResult α
  | outOfFuel : CallResult α
deriving DecidableEq, Repr

/-- A `@reconnect`-decorated method: run the guard, then the body. -/
def guarded {α : Type} (tr : Nat → TResult) (fuel i : Nat) (s : MibandState)
    (body : MibandState → Except Err α) : CallResult α × Nat :=
  match reconnect tr fuel i s with
  | (.proceed s2, c) =>
    match body s2 with
    | .ok a => (.ok a s2, c)
    | .error e => (.raised e s2, c)
  | (.raised e s2, c) => (.raised e s2, c)
  | (.outOfFuel, c) => (.outOfFuel, c)

/-- `MibandService._get_pulse`: return `self.pulse`, or raise
`AttributeError` when no pulse data has been received. -/
def _get_pulse (s : MibandState) : Except Err Int :=
  match s.pulse with
  | some v => .ok v
  | none => .error .attributeError

/-- `MibandService.get_pulse` (decorated with `@reconnect`): wraps
`_get_pulse` (the `FloatSensor` conversion is value-preserving). -/
def get_pulse (tr : Nat → TResult) (fuel i : Nat) (s : MibandState) :
    CallResult Int × Nat :=
  guarded tr fuel i s _get_pulse

/-- `MibandService.get_info` (decorated with `@reconnect`): reads several
fields from `self.band`; raises `AttributeError` if the attribute is
absent, otherwise returns the info record (abstracted). -/
def get_info (tr : Nat → TResult) (fuel i : Nat) (s : MibandState) :
    CallResult Unit × Nat :=
  guarded tr fuel i s fun s2 =>
    match s2.band with
    | some _ => .ok ()
    | none => .error .attributeError

/-- `MibandService.send_message` — note: NOT decorated with `@reconnect`.
If the message is nonempty it calls
`self.band.send_custom_alert(5, "CyberPAS", message)` directly (raising
`AttributeError` when `self.band` is absent); otherwise it raises
`ValueError`. On success the result records the alert written to the
transport: (device code, title, message). -/
def send_message (s : MibandState) (message : String) :
    Except Err (Nat × String × String) :=
  if message.length > 0 then
    match s.band with
    | some _ => .ok (5, "CyberPAS", message)
    | none => .error .attributeError
  else .error .valueError

/-- `MibandService.set_pulse`: `self.pulse = value`, no filtering. -/
def set_pulse (s : MibandState) (value : Int) : MibandState :=
  { s with pulse := some value }

/-- A session state with empty credentials (freezed, no band handle). -/
def freezedState : MibandState :=
  { mac_address := "", auth_key := [], band := none, pulse := none }

/-- A session state with credentials set, a band handle and no pulse. -/
def sample_state : MibandState :=
  { mac_address := "AB:CD:EF:12:34:56", auth_key := [1, 2], band := some (),
    pulse := none }

/-- C8: After an explicit `disconnect()`, the band handle and cached pulse
are cleared for every prior session state: `is_connected()` is false and
`_get_pulse` raises `AttributeError` instead of returning a stale value. -/
theorem disconnect_clears_state (s : MibandState) :
    is_connected (disconnect s) = false ∧
    (disconnect s).band = none ∧
    (disconnect s).pulse = none ∧
    _get_pulse (disconnect s) = .error .attributeError := by
  refine ⟨rfl, rfl, rfl, rfl⟩

/-- C2: `connect()` can never return normally. On every transport success
the code recursively calls `self.connect()` before reaching the
`self._thread_realtime_pulse()` line, so for every transport behavior,
fuel, attempt index and state the call either raises or exhausts its
fuel — it never terminates with the realtime stream started; with an
always-succeeding transport it consumes all fuel (unbounded recursion). -/
theorem connect_never_starts_stream :
    (∀ (tr : Nat → TResult) (fuel i : Nat) (s : MibandState),
      returned_normally (connect tr fuel i s).1 = false) ∧
    connect (fun _ => TResult.success) 5 0 sample_state = (.outOfFuel, 5) := by
  constructor
  · intro tr fuel
    induction fuel with
    | zero => intro i s; rfl
    | succ n ih =>
      intro i s
      rcases htr : tr i with _ | _ | _ <;> simp only [connect, htr]
      · rfl
      · rfl
      · rcases hc : connect tr n (i + 1) { s with band := some () } with ⟨r, c⟩
        have h2 := ih (i + 1) { s with band := some () }
        rw [hc] at h2
        cases r with
        | returned s2 k => exact absurd h2 (by simp [returned_normally])
        | raised e s2 => simp [returned_normally]
        | outOfFuel => simp [returned_normally]
  · rfl

/-- C4: the `reconnect` guard (the spec's `ensure_connected`) is
idempotent: on a session that is already connected it performs zero
transport connect attempts and leaves the state unchanged, so two
consecutive calls together also perform zero connect attempts; it only
reaches `connect()` when `is_connected()` is false. -/
theorem reconnect_idempotent (tr : Nat → TResult) (fuel i : Nat)
    (s : MibandState) (h : is_connected s = true) :
    (reconnect tr fuel i s).2 = 0 ∧
    ((reconnect tr fuel i s).1 = .proceed s ∨
      (reconnect tr fuel i s).1 = .raised .freezedMibandError s) ∧
    (reconnect tr fuel i s).2 + (reconnect tr fuel i s).2 = 0 := by
  by_cases hf : is_freezed s = true
  · simp [reconnect, hf]
  · simp only [Bool.not_eq_true] at hf
    simp [reconnect, hf, h]

/-- Witness for C4 at a concrete connected state. -/
theorem reconnect_idempotent_witness :
    is_connected sample_state = true ∧
    ((reconnect (fun _ => TResult.success) 3 0 sample_state).2 = 0 ∧
      ((reconnect (fun _ => TResult.success) 3 0 sample_state).1 =
          .proceed sample_state ∨
        (reconnect (fun _ => TResult.success) 3 0 sample_state).1 =
          .raised .freezedMibandError sample_state) ∧
      (reconnect (fun _ => TResult.success) 3 0 sample_state).2 +
          (reconnect (fun _ => TResult.success) 3 0 sample_state).2 = 0) :=
  ⟨by decide,
   reconnect_idempotent (fun _ => TResult.success) 3 0 sample_state (by decide)⟩

/-- C1 counterexample: on the freezed session (empty MAC and auth key),
`is_freezed()` is true, but the command `send_message` — which carries no
`@reconnect` guard — fails with `AttributeError`, not with
`FreezedMibandError`, refuting "every command attempt on such a session
fails with FreezedError". -/
theorem freezed_send_message_not_freezed_error :
    is_freezed freezedState = true ∧
    send_message freezedState "hi" = .error .attributeError ∧
    send_message freezedState "hi" ≠ .error .freezedMibandError := by
  refine ⟨by decide, rfl, ?_⟩
  intro h
  have h2 : (Except.error .attributeError : Except Err (Nat × String × String)) =
      .error .freezedMibandError := by
    calc (Except.error .attributeError : Except Err (Nat × String × String))
        = send_message freezedState "hi" := rfl
      _ = .error .freezedMibandError := h
  injection h2 with h3
  exact absurd h3 (by decide)

/-- C1 amended: on every freezed session the guard-decorated commands
`get_pulse` and `get_info` fail with `FreezedMibandError` and perform
zero transport connect attempts, while the undecorated `send_message`
(with no band handle and a nonempty message) fails with `AttributeError`
instead. -/
theorem freezed_guarded_commands (tr : Nat → TResult) (fuel i : Nat)
    (s : MibandState) (msg : String) (hf : is_freezed s = true)
    (hb : s.band = none) (hm : msg.length > 0) :
    get_pulse tr fuel i s = (.raised .freezedMibandError s, 0) ∧
    get_info tr fuel i s = (.raised .freezedMibandError s, 0) ∧
    send_message s msg = .error .attributeError := by
  refine ⟨?_, ?_, ?_⟩
  · simp [get_pulse, guarded, reconnect, hf]
  · simp [get_info, guarded, reconnect, hf]
  · simp [send_message, hb, hm]

/-- Witness for C1's amended theorem at the concrete freezed session. -/
theorem freezed_guarded_commands_witness :
    is_freezed freezedState = true ∧ freezedState.band = none ∧
    "hi".length > 0 ∧
    (get_pulse (fun _ => TResult.success) 3 0 freezedState =
        (.raised .freezedMibandError freezedState, 0) ∧
      get_info (fun _ => TResult.success) 3 0 freezedState =
        (.raised .freezedMibandError freezedState, 0) ∧
      send_message freezedState "hi" = .error .attributeError) :=
  ⟨by decide, rfl, by decide,
   freezed_guarded_commands (fun _ => TResult.success) 3 0 freezedState "hi"
     (by decide) rfl (by decide)⟩

/-- Any `connect` call with nonzero fuel performs at least one transport
connect attempt. -/
theorem connect_count_pos (tr : Nat → TResult) (fuel i : Nat)
    (s : MibandState) : 1 ≤ (connect tr (fuel + 1) i s).2 := by
  rcases htr : tr i with _ | _ | _ <;> simp only [connect, htr]
  · exact Nat.le_refl 1
  · exact Nat.le_refl 1
  · rcases hc : connect tr fuel (i + 1) { s with band := some () } with ⟨r, c⟩
    cases r <;> simp

/-- The guard's transport-connect count is passed through unchanged to a
guarded command. -/
theorem guarded_count_eq {α : Type} (tr : Nat → TResult) (fuel i : Nat)
    (s : MibandState) (body : MibandState → Except Err α) :
    (guarded tr fuel i s body).2 = (reconnect tr fuel i s).2 := by
  rcases hr : reconnect tr fuel i s with ⟨g, c⟩
  cases g with
  | proceed s2 =>
    rcases hb : body s2 with a | e <;> simp [guarded, hr, hb]
  | raised e s2 => simp [guarded, hr]
  | outOfFuel => simp [guarded, hr]

/-- On a non-freezed, non-connected session the guard's connect count is
exactly the count of the `connect()` call it makes. -/
theorem reconnect_count_eq (tr : Nat → TResult) (fuel i : Nat)
    (s : MibandState) (hf : is_freezed s = false)
    (hc : is_connected s = false) :
    (reconnect tr fuel i s).2 = (connect tr fuel i s).2 := by
  rcases h : connect tr fuel i s with ⟨r, c⟩
  cases r <;> simp [reconnect, hf, hc, h]

/-- C3 counterexample: on the freezed session the decorated entry points
`get_info` and `get_pulse` fail through the guard with
`FreezedMibandError`, but `send_message` — also a command-path entry
point — fails with `AttributeError`: had it invoked the guard first, the
result would have been the `FreezedMibandError` the guard raises. -/
theorem send_message_skips_guard_counterexample :
    get_info (fun _ => TResult.success) 3 0 freezedState =
      (.raised .freezedMibandError freezedState, 0) ∧
    get_pulse (fun _ => TResult.success) 3 0 freezedState =
      (.raised .freezedMibandError freezedState, 0) ∧
    send_message freezedState "hello" = .error .attributeError ∧
    (Except.error Err.attributeError : Except Err (Nat × String × String)) ≠
      .error .freezedMibandError := by
  refine ⟨rfl, rfl, rfl, ?_⟩
  intro h
  injection h with h2
  exact absurd h2 (by decide)

/-- C3 amended: `get_pulse` and `get_info` invoke the guard first — on a
disconnected (non-freezed) session they trigger at least one transport
connect attempt — whereas `send_message` never invokes the guard: on a
disconnected session it fails with `AttributeError` from the direct
`self.band` access, performing no reconnect. -/
theorem send_message_skips_guard (tr : Nat → TResult) (fuel i : Nat)
    (s : MibandState) (msg : String) (hf : is_freezed s = false)
    (hc : is_connected s = false) (hm : msg.length > 0) :
    1 ≤ (get_pulse tr (fuel + 1) i s).2 ∧
    1 ≤ (get_info tr (fuel + 1) i s).2 ∧
    send_message s msg = .error .attributeError := by
  have hband : s.band = none := by
    rcases hb : s.band with _ | u
    · rfl
    · rw [is_connected, hb] at hc
      exact absurd hc (by simp)
  refine ⟨?_, ?_, ?_⟩
  · rw [get_pulse, guarded_count_eq, reconnect_count_eq tr (fuel + 1) i s hf hc]
    exact connect_count_pos tr fuel i s
  · rw [get_info, guarded_count_eq, reconnect_count_eq tr (fuel + 1) i s hf hc]
    exact connect_count_pos tr fuel i s
  · simp [send_message, hband, hm]

/-- Witness for C3's amended theorem on a concrete disconnected session. -/
theorem send_message_skips_guard_witness :
    is_freezed (disconnect sample_state) = false ∧
    is_connected (disconnect sample_state) = false ∧
    "hello".length > 0 ∧
    (1 ≤ (get_pulse (fun _ => TResult.ctorFail) (2 + 1) 0
          (disconnect sample_state)).2 ∧
      1 ≤ (get_info (fun _ => TResult.ctorFail) (2 + 1) 0
          (disconnect sample_state)).2 ∧
      send_message (disconnect sample_state) "hello" =
        .error .attributeError) :=
  ⟨by decide, by decide, by decide,
   send_message_skips_guard (fun _ => TResult.ctorFail) 2 0
     (disconnect sample_state) "hello" (by decide) (by decide) (by decide)⟩

/-- C10: when the transport attempt raises `BTLEDisconnectError`
(constructor or initialization), `connect()` runs `disconnect()` before
raising `ValueError`, so the resulting observable session state is fully
disconnected: no band handle, no cached pulse, `is_connected()` false and
pulse reads failing — no partially-initialized session is left behind. -/
theorem connect_error_leaves_clean (tr : Nat → TResult) (fuel i : Nat)
    (s : MibandState) (h : tr i ≠ .success) :
    connect tr (fuel + 1) i s = (.raised .valueError (disconnect s), 1) ∧
    (disconnect s).band = none ∧ (disconnect s).pulse = none ∧
    is_connected (disconnect s) = false ∧
    _get_pulse (disconnect s) = .error .attributeError := by
  rcases htr : tr i with _ | _ | _
  · exact ⟨by simp only [connect, htr], rfl, rfl, rfl, rfl⟩
  · exact ⟨by simp only [connect, htr]; rfl, rfl, rfl, rfl, rfl⟩
  · exact absurd htr h

/-- Witness for C10 with a transport whose construction attempt fails. -/
theorem connect_error_leaves_clean_witness :
    (fun _ => TResult.ctorFail) 0 ≠ TResult.success ∧
    (connect (fun _ => TResult.ctorFail) (0 + 1) 0 sample_state =
        (.raised .valueError (disconnect sample_state), 1) ∧
      (disconnect sample_state).band = none ∧
      (disconnect sample_state).pulse = none ∧
      is_connected (disconnect sample_state) = false ∧
      _get_pulse (disconnect sample_state) = .error .attributeError) :=
  ⟨by decide,
   connect_error_leaves_clean (fun _ => TResult.ctorFail) 0 0 sample_state
     (by decide)⟩

/-- The fixed alert-code table `a = [1, 5, 4, 3]` in
`MiConsole.send_notif`. -/
def alert_codes : List Nat := [1, 5, 4, 3]

/-- Observable outcome of `MiConsole.send_notif` for a given type
selector: an alert written to the band (device code, title, message), the
"Invalid choice" message printed followed by a normal return, or an
exception. -/
inductive NotifOutcome where
  | sent : Nat → String → String → NotifOutcome
  | invalidChoicePrinted : NotifOutcome
  | raised : Err → NotifOutcome
deriving DecidableEq, Repr

/-- `MiConsole.send_notif` after the inputs are read: with selector `ty`,
`if ty > 4 or ty < 1: print('Invalid choice'); return`, otherwise
`self.band.send_custom_alert(a[ty-1], title, msg)` with
`a = [1, 5, 4, 3]`. -/
def send_notif (ty : Int) (title msg : String) : NotifOutcome :=
  if ty > 4 ∨ ty < 1 then .invalidChoicePrinted
  else .sent (alert_codes.getD (ty - 1).toNat 0) title msg

/-- C5 counterexample: selector 5 (outside {1,2,3,4}) makes `send_notif`
print "Invalid choice" and return normally — it does not fail with an
`InvalidArgumentError` (no such exception is raised anywhere on this
path). -/
theorem send_notif_no_invalid_argument_error :
    send_notif 5 "t" "m" = .invalidChoicePrinted ∧
    send_notif 5 "t" "m" ≠ .raised .invalidArgumentError := by
  exact ⟨rfl, by decide⟩

/-- C5 amended: the mapping table is exactly 1↦1, 2↦5, 3↦4, 4↦3 and every
selector outside {1,2,3,4} is rejected with a printed "Invalid choice"
and an early return — nothing is sent and no exception is raised. -/
theorem send_notif_mapping (ty : Int) (title msg : String)
    (h : ty < 1 ∨ 4 < ty) :
    send_notif ty title msg = .invalidChoicePrinted ∧
    send_notif 1 title msg = .sent 1 title msg ∧
    send_notif 2 title msg = .sent 5 title msg ∧
    send_notif 3 title msg = .sent 4 title msg ∧
    send_notif 4 title msg = .sent 3 title msg := by
  refine ⟨?_, rfl, rfl, rfl, rfl⟩
  have h2 : ty > 4 ∨ ty < 1 := h.symm
  simp only [send_notif]
  rw [if_pos h2]

/-- Witness for C5's amended theorem at selector 5. -/
theorem send_notif_mapping_witness :
    ((5 : Int) < 1 ∨ 4 < (5 : Int)) ∧
    (send_notif 5 "title" "msg" = .invalidChoicePrinted ∧
      send_notif 1 "title" "msg" = .sent 1 "title" "msg" ∧
      send_notif 2 "title" "msg" = .sent 5 "title" "msg" ∧
      send_notif 3 "title" "msg" = .sent 4 "title" "msg" ∧
      send_notif 4 "title" "msg" = .sent 3 "title" "msg") :=
  ⟨by decide, send_notif_mapping 5 "title" "msg" (by decide)⟩

/-- One hexadecimal digit, as in Python's `bytes.fromhex`. -/
def hex_digit_val (c : Char) : Option Nat :=
  if '0' ≤ c ∧ c ≤ '9' then some (c.toNat - '0'.toNat)
  else if 'a' ≤ c ∧ c ≤ 'f' then some (c.toNat - 'a'.toNat + 10)
  else if 'A' ≤ c ∧ c ≤ 'F' then some (c.toNat - 'A'.toNat + 10)
  else none

/-- Decode pairs of hex digits into bytes; `none` models the `ValueError`
that `bytes.fromhex` raises on an odd-length or non-hex string. -/
def hex_decode_chars : List Char → Option (List Nat)
  | [] => some []
  | [_] => none
  | a :: b :: rest =>
    match hex_digit_val a, hex_digit_val b, hex_decode_chars rest with
    | some hi, some lo, some bs => some ((16 * hi + lo) :: bs)
    | _, _, _ => none

/-- Python's `bytes.fromhex`, used by `MibandService.__init__` to convert
the 32-character auth key to its 16-byte form. -/
def bytes_fromhex (str : String) : Option (List Nat) :=
  hex_decode_chars str.data

/-- The `config.get(...)` inputs consumed by `MibandService.__init__`
(absent keys default to the empty string / `False`). -/
structure ServiceConfig where
  mac_address : Option String
  auth_key : Option String
  is_debug_mode : Option Bool

/-- `MibandService.__init__`: read creds from the config with empty-string
defaults, raise `ValueError` when `len(mac) != 17` or `len(auth) != 32`,
then convert the auth key with `bytes.fromhex` (whose failure is also a
`ValueError`). No transport object is constructed here — the band handle
of the resulting session state is absent. -/
def miband_service_init (config : ServiceConfig) : Except Err MibandState :=
  let mac := config.mac_address.getD ""
  let auth := config.auth_key.getD ""
  if mac.length ≠ 17 then .error .valueError
  else if auth.length ≠ 32 then .error .valueError
  else
    match bytes_fromhex auth with
    | some key =>
      .ok { mac_address := mac, auth_key := key, band := none, pulse := none }
    | none => .error .valueError

/-- `MiConsole.__init__`'s auth-key validation: `if auth:` then
`if 1 < len(auth) != 32: exit(1)` (a Python chained comparison, i.e.
`1 < len(auth) and len(auth) != 32`). Returns whether the key passes. -/
def miconsole_auth_ok (auth : String) : Bool :=
  if auth.isEmpty then true
  else if 1 < auth.length ∧ auth.length ≠ 32 then false
  else true

/-- C6: session construction fails fast with `ValueError` (never touching
the transport — `miband_service_init` builds no band handle) whenever the
MAC length differs from 17 or the auth-key length differs from 32; the
32-hex-char key "8fa9b42078627a654d22beff985655db" is accepted and
decoded to its 16 bytes, while the same key truncated to 31 characters is
rejected; the console's check likewise accepts the 32-character key and
rejects the 31-character one. -/
theorem init_validates_lengths (mac auth : String)
    (h : mac.length ≠ 17 ∨ auth.length ≠ 32) :
    miband_service_init ⟨some mac, some auth, none⟩ = .error .valueError ∧
    miband_service_init ⟨some "AB:CD:EF:12:34:56",
        some "8fa9b42078627a654d22beff985655db", none⟩ =
      .ok { mac_address := "AB:CD:EF:12:34:56",
            auth_key := [143, 169, 180, 32, 120, 98, 122, 101,
                         77, 34, 190, 255, 152, 86, 85, 219],
            band := none, pulse := none } ∧
    ([143, 169, 180, 32, 120, 98, 122, 101,
      77, 34, 190, 255, 152, 86, 85, 219] : List Nat).length = 16 ∧
    miband_service_init ⟨some "AB:CD:EF:12:34:56",
        some "8fa9b42078627a654d22beff985655d", none⟩ = .error .valueError ∧
    miconsole_auth_ok "8fa9b42078627a654d22beff985655db" = true ∧
    miconsole_auth_ok "8fa9b42078627a654d22beff985655d" = false := by
  refine ⟨?_, rfl, by decide, rfl, by decide, by decide⟩
  rcases h with h | h
  · simp [miband_service_init, h]
  · by_cases hm : mac.length = 17
    · simp [miband_service_init, hm, h]
    · simp [miband_service_init, hm]

/-- Witness for C6 at a 1-character MAC address. -/
theorem init_validates_lengths_witness :
    (("X" : String).length ≠ 17 ∨ ("" : String).length ≠ 32) ∧
    miband_service_init ⟨some "X", some "", none⟩ = .error .valueError :=
  ⟨Or.inl (by decide),
   (init_validates_lengths "X" "" (Or.inl (by decide))).1⟩

/-- Modelled from the spec: the realtime heart-rate loop
(`Miband.start_heart_rate_realtime` of the external `libs.miband4`
library, whose source is not part of this repository) delivers each
received BPM sample to the registered `heart_measure_callback` once per
sample, in device order. The callback registered by the service is
`set_pulse`. Returns the final state and the list of raw values the
callback was invoked with. -/
def start_heart_rate_realtime (s : MibandState) :
    List Int → MibandState × List Int
  | [] => (s, [])
  | v :: rest =>
    let r := start_heart_rate_realtime (set_pulse s v) rest
    (r.1, v :: r.2)

/-- For a nonempty list, prepending does not change the last element, so
the `Option.or` of `getLast?` is insensitive to its fallback. -/
theorem getLast?_cons_or {α : Type} (w : α) (ws : List α) (x y : Option α) :
    ((w :: ws).getLast?).or x = ((w :: ws).getLast?).or y := by
  induction ws generalizing w with
  | nil => rfl
  | cons a as ih =>
    rw [List.getLast?_cons_cons]
    exact ih a

/-- C9: for every sample sequence the pulse callback is invoked exactly
once per sample, in order, with the raw integer value unmodified (the
invocation log equals the sample list); the stored pulse ends at the most
recent sample (unchanged when no sample arrived), and no other session
field is touched; concretely, samples [72, 75, 74] produce exactly the
invocations [72, 75, 74] and a stored pulse of 74. -/
theorem realtime_pulse_unfiltered (s : MibandState) (samples : List Int) :
    (start_heart_rate_realtime s samples).2 = samples ∧
    (start_heart_rate_realtime s samples).1.pulse =
      (samples.getLast?).or s.pulse ∧
    (start_heart_rate_realtime s samples).1.band = s.band ∧
    (start_heart_rate_realtime s samples).1.mac_address = s.mac_address ∧
    start_heart_rate_realtime sample_state [72, 75, 74] =
      ({ sample_state with pulse := some 74 }, [72, 75, 74]) := by
  have main : ∀ (l : List Int) (t : MibandState),
      (start_heart_rate_realtime t l).2 = l ∧
      (start_heart_rate_realtime t l).1.pulse = (l.getLast?).or t.pulse ∧
      (start_heart_rate_realtime t l).1.band = t.band ∧
      (start_heart_rate_realtime t l).1.mac_address = t.mac_address := by
    intro l
    induction l with
    | nil => intro t; exact ⟨rfl, rfl, rfl, rfl⟩
    | cons v rest ih =>
      intro t
      obtain ⟨h1, h2, h3, h4⟩ := ih (set_pulse t v)
      refine ⟨?_, ?_, h3, h4⟩
      · show v :: (start_heart_rate_realtime (set_pulse t v) rest).2 = v :: rest
        rw [h1]
      · show (start_heart_rate_realtime (set_pulse t v) rest).1.pulse =
          ((v :: rest).getLast?).or t.pulse
        rw [h2]
        cases rest with
        | nil => rfl
        | cons w ws =>
          rw [List.getLast?_cons_cons]
          exact getLast?_cons_or w ws (set_pulse t v).pulse t.pulse
  obtain ⟨h1, h2, h3, h4⟩ := main samples s
  exact ⟨h1, h2, h3, h4, rfl⟩

/-- Outcome of the i-th iteration of `MiConsole.__init__`'s connect loop:
the attempt (`Miband(mac, auth, debug=True)` + its initialization inside
the `try` block) returns, raises `BTLEDisconnectError` (after which the
handler sleeps `time.sleep(3)` — during which a `KeyboardInterrupt` may
or may not arrive), or raises `KeyboardInterrupt` itself. -/
inductive AttemptOutcome where
  | ok
  | btleDisconnect (interruptDuringSleep : Bool)
  | keyboardInterrupt
deriving DecidableEq, Repr

/-- Observable result of the console connect loop: connected after a
number of attempts with the list of backoff sleeps performed (seconds),
process exit via `exit()` (the `except KeyboardInterrupt` handler),
a `KeyboardInterrupt` escaping uncaught to the caller, or fuel
exhaustion (the loop retrying forever). -/
inductive LoopResult where
  | connected (attempts : Nat) (sleeps : List Nat)
  | exited
  | interruptPropagated (attempts : Nat) (sleeps : List Nat)
  | outOfFuel
deriving DecidableEq, Repr

/-- The fixed backoff of the console connect loop (`time.sleep(3)`). -/
def backoff_seconds : Nat := 3

/-- `MiConsole.__init__`'s connect-retry loop, fueled. `beh i` is the
outcome of the i-th attempt; `sleeps` accumulates the backoff sleeps
performed so far.

Source shape:
```
while not success:
    try:
        self.band = Miband(mac, bytes_auth, debug=True)
        success = self.band.initialize(); break
    except BTLEDisconnectError:
        print(...); time.sleep(3); continue
    except KeyboardInterrupt:
        print(); exit()
```
The `except KeyboardInterrupt` handler covers only the `try` body: an
interrupt arriving during `time.sleep(3)` (inside the
`except BTLEDisconnectError` handler) is uncaught and propagates. -/
def console_connect_loop (beh : Nat → AttemptOutcome) :
    Nat → Nat → List Nat → LoopResult
  | 0, _, _ => .outOfFuel
  | fuel + 1, i, sleeps =>
    match beh i with
    | .ok => .connected (i + 1) sleeps
    | .btleDisconnect false =>
      console_connect_loop beh fuel (i + 1) (sleeps ++ [backoff_seconds])
    | .btleDisconnect true => .interruptPropagated (i + 1) sleeps
    | .keyboardInterrupt => .exited

/-- After `n` disconnecting attempts followed by a successful one, the
loop connects having slept the 3-second backoff exactly `n` times. -/
theorem console_loop_retries (n : Nat) (beh : Nat → AttemptOutcome) :
    ∀ (fuel i : Nat) (acc : List Nat),
    (∀ j, j < n → beh (i + j) = .btleDisconnect false) →
    beh (i + n) = .ok → n < fuel →
    console_connect_loop beh fuel i acc =
      .connected (i + n + 1) (acc ++ List.replicate n backoff_seconds) := by
  induction n with
  | zero =>
    intro fuel i acc _ hok hf
    match fuel, hf with
    | fuel + 1, _ =>
      have h0 : beh i = .ok := hok
      simp [console_connect_loop, h0]
  | succ m ih =>
    intro fuel i acc hd hok hf
    match fuel, hf with
    | fuel + 1, hf =>
      have h0 : beh i = .btleDisconnect false := by
        have := hd 0 (Nat.succ_pos m)
        simpa using this
      have step : console_connect_loop beh (fuel + 1) i acc =
          console_connect_loop beh fuel (i + 1) (acc ++ [backoff_seconds]) := by
        simp [console_connect_loop, h0]
      rw [step]
      have hd2 : ∀ j, j < m → beh ((i + 1) + j) = .btleDisconnect false := by
        intro j hj
        have := hd (j + 1) (Nat.succ_lt_succ hj)
        have harith : i + (j + 1) = (i + 1) + j := by omega
        rwa [harith] at this
      have hok2 : beh ((i + 1) + m) = .ok := by
        have harith : i + (m + 1) = (i + 1) + m := by omega
        rwa [harith] at hok
      have hf2 : m < fuel := Nat.lt_of_succ_lt_succ hf
      rw [ih fuel (i + 1) (acc ++ [backoff_seconds]) hd2 hok2 hf2]
      have harith2 : (i + 1) + m + 1 = i + (m + 1) + 1 := by omega
      rw [harith2, List.append_assoc]
      have hrep : ([backoff_seconds] ++ List.replicate m backoff_seconds :
          List Nat) = List.replicate (m + 1) backoff_seconds := by
        simp [List.replicate_succ]
      rw [hrep]

/-- If every attempt raises `BTLEDisconnectError`, the loop never
terminates: it retries until the fuel is exhausted. -/
theorem console_loop_retries_forever (beh : Nat → AttemptOutcome)
    (hall : ∀ j, beh j = .btleDisconnect false) :
    ∀ (fuel i : Nat) (acc : List Nat),
    console_connect_loop beh fuel i acc = .outOfFuel := by
  intro fuel
  induction fuel with
  | zero => intro i acc; rfl
  | succ m ih =>
    intro i acc
    simp [console_connect_loop, hall i, ih]

/-- C7 counterexample: a `KeyboardInterrupt` arriving during the
3-second backoff sleep (which runs inside the `except
BTLEDisconnectError` handler, outside the `try` block) is not caught:
the loop result is an uncaught interrupt propagating past the caller,
not the clean `exit()` stop the claim describes. -/
theorem interrupt_during_wait_propagates :
    console_connect_loop (fun _ => .btleDisconnect true) 5 0 [] =
      .interruptPropagated 1 [] ∧
    LoopResult.interruptPropagated 1 [] ≠ .exited :=
  ⟨rfl, by decide⟩

/-- C7 amended: on transport disconnect errors the console loop retries
with a fixed 3-second backoff, indefinitely until an attempt succeeds
(with an always-failing transport it never terminates); a keyboard
interrupt arriving during a connect attempt stops the retrying via
`exit()` without propagating, but one arriving during the backoff sleep
propagates uncaught past the caller. -/
theorem console_loop_backoff (beh : Nat → AttemptOutcome) (n fuel : Nat)
    (hd : ∀ j, j < n → beh j = .btleDisconnect false)
    (hok : beh n = .ok) (hf : n < fuel) :
    console_connect_loop beh fuel 0 [] =
      .connected (n + 1) (List.replicate n backoff_seconds) ∧
    console_connect_loop (fun _ => .btleDisconnect false) fuel 0 [] =
      .outOfFuel ∧
    console_connect_loop (fun _ => .keyboardInterrupt) fuel 0 [] =
      .exited ∧
    console_connect_loop (fun _ => .btleDisconnect true) fuel 0 [] =
      .interruptPropagated 1 [] := by
  obtain ⟨f, rfl⟩ : ∃ f, fuel = f + 1 := ⟨fuel - 1, by omega⟩
  refine ⟨?_, ?_, rfl, rfl⟩
  · have h := console_loop_retries n beh (f + 1) 0 []
      (by intro j hj; simpa using hd j hj) (by simpa using hok) hf
    simpa using h
  · exact console_loop_retries_forever _ (fun _ => rfl) (f + 1) 0 []

/-- Witness for C7's amended theorem: one disconnecting attempt, then a
successful one, with fuel 4. -/
theorem console_loop_backoff_witness :
    (∀ j, j < 1 →
      (fun k => if k = 0 then AttemptOutcome.btleDisconnect false
        else AttemptOutcome.ok) j = .btleDisconnect false) ∧
    (fun k => if k = 0 then AttemptOutcome.btleDisconnect false
      else AttemptOutcome.ok) 1 = .ok ∧
    1 < 4 ∧
    (console_connect_loop (fun k => if k = 0 then
          AttemptOutcome.btleDisconnect false else AttemptOutcome.ok)
        4 0 [] = .connected 2 (List.replicate 1 backoff_seconds) ∧
      console_connect_loop (fun _ => .btleDisconnect false) 4 0 [] =
        .outOfFuel ∧
      console_connect_loop (fun _ => .keyboardInterrupt) 4 0 [] =
        .exited ∧
      console_connect_loop (fun _ => .btleDisconnect true) 4 0 [] =
        .interruptPropagated 1 []) :=
  ⟨fun j hj => by
      have hj0 : j = 0 := by omega
      subst hj0; rfl,
   rfl, by decide,
   console_loop_backoff
     (fun k => if k = 0 then AttemptOutcome.btleDisconnect false
       else AttemptOutcome.ok) 1 4
     (fun j hj => by
       have hj0 : j = 0 := by omega
       subst hj0; rfl)
     rfl (by decide)⟩
